import Mathlib

/-!
Verification of the ol-load-geopackage module.

Shallow embedding of the module's logic:
* geometry cells are lists of byte values (`List Nat`);
* the sql.js engine is modelled by an abstract `Database` record holding the
  rows that the module's fixed catalog queries return;
* the two asynchronous prerequisites of `loadGpkg` (the shared WASM-load
  promise and the per-call byte fetch) are modelled by their settled
  outcomes, joined exactly as the source's `Promise.allSettled` callback
  joins them;
* JavaScript exceptions are modelled with `Except`, each constructor of
  `LoadError` standing for one throw site of the source together with
  the data interpolated into its message.
-/

/-- Errors thrown by the module; one constructor per throw site of the
source, carrying the data the source interpolates into the message. -/
inductive LoadError where
  /-- loadGpkg: "SQL WASM loading has not started". -/
  | wasmNotInit : LoadError
  /-- loadGpkg: "Missing requested display projection [p]". -/
  | unknownDisplayProjection : String → LoadError
  /-- loadGpkg join: "Unable to load SQLite JS binary (sql-wasm.wasm)". -/
  | wasmLoadFailed : String → LoadError
  /-- readRawGpkg: "GPKG file could not be loaded from URL ... Response:
  (status) statusText". -/
  | sourceUnreachable : String → Nat → String → LoadError
  /-- readRawGpkg: TypeError "Input must be URL string or URL/File/Blob
  object". -/
  | invalidInputKind : LoadError
  /-- readRawGpkg: "Requested GPKG file could not be loaded." wrapping a
  body-read failure. -/
  | readFailed : String → LoadError
  /-- processGpkgData: "Missing data projection [p] for table t". -/
  | unknownSourceProjection : String → String → LoadError
  /-- parseGpkgGeom: "Invalid geometry envelope size flag in GeoPackage". -/
  | invalidEnvelopeFlag : LoadError
  /-- Geometry column value absent or not a byte array: in JavaScript the
  subsequent indexing/subarray raises a TypeError. -/
  | geomValueNotBytes : LoadError
  deriving DecidableEq

deriving instance DecidableEq for Except

/-- The 3-bit envelope flag field of a geometry cell: the flags byte is read
at offset 3 (`gpkgBinGeom[3]`), then `(flags >> 1) & 7`.  When the cell is
shorter than 4 bytes the JavaScript index yields `undefined`, and
`(undefined >> 1) & 7` evaluates to `0` (ToInt32 of NaN is 0). -/
def eFlagsOf (cell : List Nat) : Nat :=
  match cell[3]? with
  | some flags => (flags >>> 1) &&& 7
  | none => 0

/-- The switch on the envelope flag field in `parseGpkgGeom`. -/
def envelopeSizeOf : Nat → Except LoadError Nat
  | 0 => .ok 0
  | 1 => .ok 32
  | 2 => .ok 48
  | 3 => .ok 48
  | 4 => .ok 64
  | _ + 5 => .error .invalidEnvelopeFlag

/-- Offset of the WKB payload in a geometry cell: `envelopeSize + 8`. -/
def wkbOffsetOf (cell : List Nat) : Except LoadError Nat :=
  match envelopeSizeOf (eFlagsOf cell) with
  | .error e => .error e
  | .ok envelopeSize => .ok (envelopeSize + 8)

/-- `parseGpkgGeom`: strip the variable-length GeoPackage binary header and
return the WKB payload (`gpkgBinGeom.subarray(wkbOffset)`, which clamps to
an empty slice when the offset is past the end, exactly as `List.drop`). -/
def parseGpkgGeom (cell : List Nat) : Except LoadError (List Nat) :=
  match wkbOffsetOf cell with
  | .error e => .error e
  | .ok off => .ok (cell.drop off)

/-- A settled HTTP response as `readRawGpkg` sees it: status, statusText and
the outcome of reading the body (`.bytes()` / `.arrayBuffer()`). -/
structure JsResponse where
  status : Nat
  statusText : String
  body : Except String (List Nat)
  deriving DecidableEq

/-- Settled outcome of `fetch(input)`: a resolved response, or a transport
failure (the fetch promise rejected). -/
inductive FetchOutcome where
  | resolved : JsResponse → FetchOutcome
  | rejected : LoadError → FetchOutcome
  deriving DecidableEq

/-- The runtime type of the `gpkgFile` argument, following the chain of
`instanceof` / `typeof` tests in `readRawGpkg`: a File/Blob (carrying the
outcome of reading its bytes), a URL string, a URL object, or any other
value. -/
inductive GpkgInput where
  | blob : Except String (List Nat) → GpkgInput
  | urlString : String → GpkgInput
  | urlObject : String → GpkgInput
  | other : GpkgInput
  deriving DecidableEq

/-- `Response.ok`: status in the inclusive range 200..299. -/
def responseOk (status : Nat) : Bool :=
  decide (200 ≤ status) && decide (status ≤ 299)

/-- The try/catch around `.bytes()` / `.arrayBuffer()`: a body-read failure
is wrapped in "Requested GPKG file could not be loaded.". -/
def readBody (body : Except String (List Nat)) : Except LoadError (List Nat) :=
  match body with
  | .ok bytes => .ok bytes
  | .error e => .error (.readFailed e)

/-- The URL branch of `readRawGpkg`: await `fetch`; a rejected fetch
propagates as-is (it is outside the try block), a non-ok response throws
the source-unreachable error carrying status and statusText. -/
def fetchAndRead (fetchEnv : String → FetchOutcome) (url : String) :
    Except LoadError (List Nat) :=
  match fetchEnv url with
  | .rejected e => .error e
  | .resolved r =>
    if responseOk r.status then readBody r.body
    else .error (.sourceUnreachable url r.status r.statusText)

/-- `readRawGpkg`: dispatch on the runtime type of the input. -/
def readRawGpkg (fetchEnv : String → FetchOutcome) :
    GpkgInput → Except LoadError (List Nat)
  | .blob content => readBody content
  | .urlString url => fetchAndRead fetchEnv url
  | .urlObject url => fetchAndRead fetchEnv url
  | .other => .error .invalidInputKind

/-- A fetch environment whose every response is HTTP 404. -/
def fetch404 : String → FetchOutcome :=
  fun _ => .resolved { status := 404, statusText := "Not Found", body := .ok [] }

/-- A SQLite cell value as sql.js delivers it to JavaScript. -/
inductive SqlValue where
  | text : String → SqlValue
  | num : Int → SqlValue
  | blob : List Nat → SqlValue
  | null : SqlValue
  deriving DecidableEq

/-- One row of `SELECT * FROM <table>` as `stmt.getAsObject()` returns it:
a property bag mapping column names to values. -/
abbrev Row := List (String × SqlValue)

/-- One row of the `gpkg_contents` catalog table (the columns the module's
queries touch). -/
structure ContentsRow where
  table_name : String
  data_type : String
  srs_id : Int
  deriving DecidableEq

/-- One row of the `gpkg_geometry_columns` catalog table (the columns the
module's queries touch). -/
structure GeomColRow where
  table_name : String
  column_name : String
  deriving DecidableEq

/-- Model of the in-memory SQLite database built by sql.js from the loaded
bytes: the engine itself is a black box, so the model holds exactly the
rows that the module's four fixed queries return. -/
structure Database where
  contents : List ContentsRow
  geometryColumns : List GeomColRow
  tables : String → List Row
  layerStyles : List (String × String)

/-- One result row of the catalog join query: table name, srs id (already
converted to text by `row[1].toString()`), and geometry column name. -/
structure FeatureTableDesc where
  table_name : String
  srs_id : String
  geometry_column_name : String
  deriving DecidableEq

/-- Property read on a JavaScript object (first binding of the key). -/
def lookupObj {α : Type} : List (String × α) → String → Option α
  | [], _ => none
  | p :: ps, k => if p.1 = k then some p.2 else lookupObj ps k

/-- Property assignment on a JavaScript object: overwrite an existing key in
place, otherwise append the new binding. -/
def objAssign {α : Type} (m : List (String × α)) (k : String) (v : α) :
    List (String × α) :=
  if k ∈ m.map Prod.fst then
    m.map (fun p => if p.1 = k then (k, v) else p)
  else m ++ [(k, v)]

/-- The JavaScript `delete` operator on a property bag. -/
def objDelete {α : Type} (m : List (String × α)) (k : String) :
    List (String × α) :=
  m.filter (fun p => p.1 ≠ k)

/-- The catalog join query of `processGpkgData`:
`SELECT gpkg_contents.table_name, gpkg_contents.srs_id,
gpkg_geometry_columns.column_name FROM gpkg_contents JOIN
gpkg_geometry_columns WHERE gpkg_contents.data_type='features' AND
gpkg_contents.table_name=gpkg_geometry_columns.table_name`, with the
srs id stringified as in the row-reading loop. -/
def featureTables (db : Database) : List FeatureTableDesc :=
  db.contents.flatMap (fun c =>
    db.geometryColumns.filterMap (fun g =>
      if c.data_type = "features" ∧ c.table_name = g.table_name then
        some { table_name := c.table_name, srs_id := toString c.srs_id,
               geometry_column_name := g.column_name }
      else none))

/-- The layer_styles probe: `SELECT gpkg_contents.table_name FROM
gpkg_contents WHERE gpkg_contents.table_name='layer_styles'` followed by
`stmt.step()` — true exactly when the catalog has such a row. -/
def hasLayerStyles (db : Database) : Bool :=
  db.contents.any (fun c => c.table_name == "layer_styles")

/-- The loop `sldsFromGpkg[row[0]] = row[1]` over the rows of
`SELECT f_table_name,styleSLD FROM layer_styles`. -/
def sldsFrom (rows : List (String × String)) : List (String × String) :=
  rows.foldl (fun m p => objAssign m p.1 p.2) []

/-- The style-extraction block of `processGpkgData`: probe for the
layer_styles table, and only when present read its rows; otherwise the
style mapping stays the empty object. -/
def extractSlds (db : Database) : List (String × String) :=
  if hasLayerStyles db then sldsFrom db.layerStyles else []

/-- An OpenLayers feature as the module builds it: the WKB bytes handed to
the (black-box) WKB reader, the projections passed alongside, and the
attributes attached by `setProperties`. -/
structure Feature where
  wkb : List Nat
  dataProjection : String
  featureProjection : String
  properties : Row
  deriving DecidableEq

/-- An OpenLayers vector source as the module fills it: its features and
the source-level properties set by `setProperties`. -/
structure VectorSource where
  features : List Feature
  props : List (String × String)
  deriving DecidableEq

/-- The body of the row loop: read the geometry column, delete it from the
property bag, strip the GeoPackage header, build the feature and attach the
remaining columns as its attributes. -/
def processRow (tableProj displayProj geomCol : String) (row : Row) :
    Except LoadError Feature :=
  match lookupObj row geomCol with
  | some (SqlValue.blob b) =>
    match parseGpkgGeom b with
    | .error e => .error e
    | .ok wkb =>
      .ok { wkb := wkb, dataProjection := tableProj,
            featureProjection := displayProj,
            properties := objDelete row geomCol }
  | _ => .error .geomValueNotBytes

/-- The `while (stmt.step())` loop over the rows of one feature table; the
first failing row aborts the whole extraction. -/
def processRows (tableProj displayProj geomCol : String) :
    List Row → Except LoadError (List Feature)
  | [] => .ok []
  | r :: rs =>
    match processRow tableProj displayProj geomCol r with
    | .error e => .error e
    | .ok f =>
      match processRows tableProj displayProj geomCol rs with
      | .error e => .error e
      | .ok fs => .ok (f :: fs)

/-- One iteration of the table loop in `processGpkgData`: check the table's
data projection is registered before any row is read, then stream the rows
and tag the resulting vector source with `origProjection`. -/
def processTable (reg : String → Bool) (displayProj : String) (db : Database)
    (t : FeatureTableDesc) : Except LoadError VectorSource :=
  if reg ("EPSG:" ++ t.srs_id) then
    match processRows ("EPSG:" ++ t.srs_id) displayProj
        t.geometry_column_name (db.tables t.table_name) with
    | .error e => .error e
    | .ok fs =>
      .ok { features := fs,
            props := [("origProjection", "EPSG:" ++ t.srs_id)] }
  else
    .error (.unknownSourceProjection t.table_name ("EPSG:" ++ t.srs_id))

/-- The `for (let table of featureTableNames)` loop, accumulating
`dataFromGpkg[table_name] = vectorSource`. -/
def processTables (reg : String → Bool) (displayProj : String)
    (db : Database) :
    List FeatureTableDesc → List (String × VectorSource) →
    Except LoadError (List (String × VectorSource))
  | [], acc => .ok acc
  | t :: ts, acc =>
    match processTable reg displayProj db t with
    | .error e => .error e
    | .ok vs => processTables reg displayProj db ts (objAssign acc t.table_name vs)

/-- `processGpkgData` over an already-constructed database: enumerate the
feature tables from the catalog, extract the optional styles, and
materialize every table; returns the pair
`[dataFromGpkg, sldsFromGpkg]`. -/
def processGpkgData (reg : String → Bool) (db : Database)
    (displayProj : String) :
    Except LoadError (List (String × VectorSource) × List (String × String)) :=
  match processTables reg displayProj db (featureTables db) [] with
  | .error e => .error e
  | .ok data => .ok (data, extractSlds db)

/-- The sql.js module object delivered by the WASM-load promise; the only
capability the module uses is `new sqlWasm.Database(bytes)`, modelled as a
black-box factory from the fetched bytes to the database model. -/
structure SqlWasm where
  databaseOf : List Nat → Database

/-- The `Promise.allSettled` callback in `loadGpkg`: `results[0]` (the WASM
load) is inspected first and its failure wrapped; only then is `results[1]`
(the byte fetch) inspected and its failure re-thrown as the exact same
error value; extraction proceeds only when both settled fulfilled. -/
def joinPrereqs (wasmRes : Except String SqlWasm)
    (fetchRes : Except LoadError (List Nat)) :
    Except LoadError (SqlWasm × List Nat) :=
  match wasmRes with
  | .error reason => .error (.wasmLoadFailed reason)
  | .ok wasm =>
    match fetchRes with
    | .error e => .error e
    | .ok bytes => .ok (wasm, bytes)

/-- The module's load result: the table-name-indexed vector sources and the
layer-name-indexed SLD strings. -/
abbrev GpkgLoadResult :=
  List (String × VectorSource) × List (String × String)

/-- The asynchronous part of `loadGpkg`: join both settled prerequisites,
then run `processGpkgData` over the database built from the bytes. -/
def loadGpkgAsync (wasmRes : Except String SqlWasm)
    (fetchRes : Except LoadError (List Nat))
    (reg : String → Bool) (displayProj : String) :
    Except LoadError GpkgLoadResult :=
  match joinPrereqs wasmRes fetchRes with
  | .error e => .error e
  | .ok (wasm, bytes) => processGpkgData reg (wasm.databaseOf bytes) displayProj

/-- The module-level mutable state: the variable `promiseSqlWasmLoaded`,
`none` while `initSqlJsWasm` has never run, otherwise the (eventual)
settled outcome of the WASM-load promise it stored. -/
structure ProcState where
  promiseSqlWasmLoaded : Option (Except String SqlWasm)

/-- `initSqlJsWasm`: stores the WASM-load promise in the module-level
variable (its settled outcome in this embedding). -/
def initSqlJsWasm (wasmLoadOutcome : Except String SqlWasm) : ProcState :=
  { promiseSqlWasmLoaded := some wasmLoadOutcome }

/-- Outcome of the synchronous prefix of `loadGpkg`: either a synchronous
throw (before any asynchronous work), or a pending future with the byte
fetch of the given input started. -/
inductive SyncResult where
  | thrown : LoadError → SyncResult
  | started : Except String SqlWasm → GpkgInput → SyncResult

/-- The synchronous prefix of `loadGpkg`: the two guard checks, in source
order, performed before `readRawGpkg` is called. -/
def loadGpkgSync (st : ProcState) (reg : String → Bool)
    (gpkgFile : GpkgInput) (displayProjection : String) : SyncResult :=
  match st.promiseSqlWasmLoaded with
  | none => .thrown .wasmNotInit
  | some wasmRes =>
    if reg displayProjection then .started wasmRes gpkgFile
    else .thrown (.unknownDisplayProjection displayProjection)

/-- Which input the synchronous prefix started fetching, if any. -/
def fetchStartedOf : SyncResult → Option GpkgInput
  | .thrown _ => none
  | .started _ f => some f

/-- What a call to `loadGpkg` hands back to the caller: a synchronous throw,
or a future with the given eventual outcome. -/
inductive CallResult where
  | syncThrow : LoadError → CallResult
  | future : Except LoadError GpkgLoadResult → CallResult

/-- A whole `loadGpkg` call as a state transformer over the module-level
state: run the synchronous prefix; when it passes, start the byte fetch and
return the future joining both prerequisites. -/
def loadGpkgRun (st : ProcState) (reg : String → Bool)
    (fetchEnv : String → FetchOutcome) (gpkgFile : GpkgInput)
    (displayProjection : String) : CallResult × ProcState :=
  match loadGpkgSync st reg gpkgFile displayProjection with
  | .thrown e => (.syncThrow e, st)
  | .started wasmRes f =>
    (.future (loadGpkgAsync wasmRes (readRawGpkg fetchEnv f) reg
      displayProjection), st)

/-- A registry containing the projections used by the concrete examples. -/
def regW : String → Bool :=
  fun p => p == "EPSG:4326" || p == "EPSG:3857"

/-- A concrete geometry cell: 8 header bytes with flag field 0 (no
envelope), then the 2-byte payload. -/
def gW : List Nat := [71, 80, 0, 0, 230, 16, 0, 0, 1, 1]

/-- A concrete one-table GeoPackage database model: table "roads" in
EPSG:4326 with one feature row, and no layer_styles table. -/
def dbW : Database :=
  { contents := [{ table_name := "roads", data_type := "features",
                   srs_id := 4326 }],
    geometryColumns := [{ table_name := "roads", column_name := "geom" }],
    tables := fun t =>
      if t = "roads" then
        [[("fid", SqlValue.num 1), ("geom", SqlValue.blob gW),
          ("name", SqlValue.text "A1")]]
      else [],
    layerStyles := [] }

/-- A concrete database model whose catalog lists a layer_styles table with
one style row. -/
def dbW2 : Database :=
  { contents := [{ table_name := "layer_styles", data_type := "attributes",
                   srs_id := 0 }],
    geometryColumns := [],
    tables := fun _ => [],
    layerStyles := [("roads", "<sld/>")] }

/-- The load result expected for `dbW` at display projection EPSG:3857. -/
def dataW : List (String × VectorSource) :=
  [("roads",
    { features := [{ wkb := [1, 1], dataProjection := "EPSG:4326",
                     featureProjection := "EPSG:3857",
                     properties := [("fid", SqlValue.num 1),
                                    ("name", SqlValue.text "A1")] }],
      props := [("origProjection", "EPSG:4326")] })]

/-- A concrete sql.js module handle whose database factory ignores the
bytes and yields `dbW`. -/
def wasmW : SqlWasm := { databaseOf := fun _ => dbW }

/-- C1: for every geometry cell whose 3-bit envelope flag field
`(flags >> 1) & 7` (flags being the byte at offset 3) is 0, 1, 2, 3, 4, the
envelope parser returns the payload starting at byte offset 8, 40, 56, 56,
72 respectively; for 5, 6, 7 it fails with the invalid-envelope-flag
error. -/
theorem parseGpkgGeom_offset_table (cell : List Nat) (flags : Nat)
    (h : cell[3]? = some flags) :
    ((flags >>> 1) &&& 7 = 0 → parseGpkgGeom cell = .ok (cell.drop 8)) ∧
    ((flags >>> 1) &&& 7 = 1 → parseGpkgGeom cell = .ok (cell.drop 40)) ∧
    ((flags >>> 1) &&& 7 = 2 → parseGpkgGeom cell = .ok (cell.drop 56)) ∧
    ((flags >>> 1) &&& 7 = 3 → parseGpkgGeom cell = .ok (cell.drop 56)) ∧
    ((flags >>> 1) &&& 7 = 4 → parseGpkgGeom cell = .ok (cell.drop 72)) ∧
    (5 ≤ (flags >>> 1) &&& 7 →
      parseGpkgGeom cell = .error .invalidEnvelopeFlag) := by
  have he : eFlagsOf cell = (flags >>> 1) &&& 7 := by
    simp [eFlagsOf, h]
  refine ⟨?_, ?_, ?_, ?_, ?_, ?_⟩ <;> intro hv
  · simp [parseGpkgGeom, wkbOffsetOf, he, hv, envelopeSizeOf]
  · simp [parseGpkgGeom, wkbOffsetOf, he, hv, envelopeSizeOf]
  · simp [parseGpkgGeom, wkbOffsetOf, he, hv, envelopeSizeOf]
  · simp [parseGpkgGeom, wkbOffsetOf, he, hv, envelopeSizeOf]
  · simp [parseGpkgGeom, wkbOffsetOf, he, hv, envelopeSizeOf]
  · obtain ⟨k, hk⟩ : ∃ k, (flags >>> 1) &&& 7 = k + 5 := ⟨((flags >>> 1) &&& 7) - 5, by omega⟩
    simp [parseGpkgGeom, wkbOffsetOf, he, hk, envelopeSizeOf]

/-- Witness for C1: a cell with flags byte 2 has field 1 and payload offset
40; a cell with flags byte 10 has field 5 and is rejected. -/
theorem parseGpkgGeom_offset_table_witness :
    parseGpkgGeom [71, 80, 0, 2, 230, 16, 0, 0, 1, 1] =
      .ok ([71, 80, 0, 2, 230, 16, 0, 0, 1, 1].drop 40) ∧
    parseGpkgGeom [71, 80, 0, 10, 0, 0, 0, 0] =
      .error .invalidEnvelopeFlag := by
  constructor
  · exact (parseGpkgGeom_offset_table [71, 80, 0, 2, 230, 16, 0, 0, 1, 1] 2
      (by decide)).2.1 (by decide)
  · exact (parseGpkgGeom_offset_table [71, 80, 0, 10, 0, 0, 0, 0] 10
      (by decide)).2.2.2.2.2 (by decide)

/-- C2: whenever the envelope flag is valid, the parser returns the slice of
the cell starting at the computed offset, whose length is the cell length
minus the offset, and the offset is determined by the byte at offset 3
alone: any cell with the same byte at offset 3 gets the same offset. -/
theorem parseGpkgGeom_payload_length (cell c2 : List Nat) (off : Nat)
    (h : wkbOffsetOf cell = .ok off) (hflags : cell[3]? = c2[3]?) :
    parseGpkgGeom cell = .ok (cell.drop off) ∧
    (cell.drop off).length = cell.length - off ∧
    wkbOffsetOf c2 = .ok off := by
  have hd : eFlagsOf c2 = eFlagsOf cell := by
    simp [eFlagsOf, ← hflags]
  refine ⟨?_, ?_, ?_⟩
  · simp [parseGpkgGeom, h]
  · exact List.length_drop off cell
  · unfold wkbOffsetOf at h ⊢
    rw [hd]
    exact h

/-- Witness for C2: a 44-byte cell with flags byte 2 has offset 40 and a
4-byte payload; an unrelated cell with the same flags byte gets offset 40
as well. -/
theorem parseGpkgGeom_payload_length_witness :
    parseGpkgGeom (List.replicate 3 0 ++ 2 :: List.replicate 40 9) =
      .ok ((List.replicate 3 0 ++ 2 :: List.replicate 40 9).drop 40) ∧
    ((List.replicate 3 0 ++ 2 :: List.replicate 40 9).drop 40).length =
      (List.replicate 3 0 ++ 2 :: List.replicate 40 9).length - 40 ∧
    wkbOffsetOf [5, 5, 5, 2] = .ok 40 :=
  parseGpkgGeom_payload_length (List.replicate 3 0 ++ 2 :: List.replicate 40 9)
    [5, 5, 5, 2] 40 (by decide) (by decide)

/-- C10: the parser never checks the cell length.  A cell shorter than 4
bytes has no flags byte, the 3-bit field evaluates to 0 and the parser
succeeds with the (empty) slice from offset 8; more generally, for any
valid flag, a cell shorter than 8 + envelope size yields the empty slice
rather than an error. -/
theorem parseGpkgGeom_truncated (cell : List Nat) :
    (cell.length < 4 → eFlagsOf cell = 0 ∧
      parseGpkgGeom cell = .ok (cell.drop 8) ∧
      parseGpkgGeom cell = .ok []) ∧
    (∀ s, envelopeSizeOf (eFlagsOf cell) = .ok s → cell.length < 8 + s →
      parseGpkgGeom cell = .ok []) := by
  constructor
  · intro hlen
    have hnone : cell[3]? = none := by
      rw [List.getElem?_eq_none_iff]
      omega
    have he : eFlagsOf cell = 0 := by
      simp [eFlagsOf, hnone]
    have hdrop : cell.drop 8 = [] := List.drop_eq_nil_of_le (by omega)
    refine ⟨he, ?_, ?_⟩
    · simp [parseGpkgGeom, wkbOffsetOf, he, envelopeSizeOf]
    · simp [parseGpkgGeom, wkbOffsetOf, he, envelopeSizeOf, hdrop]
  · intro s hs hlen
    have hdrop : cell.drop (s + 8) = [] := List.drop_eq_nil_of_le (by omega)
    simp [parseGpkgGeom, wkbOffsetOf, hs, hdrop]

/-- Witness for C10: the 2-byte cell `[1, 2]` parses to the empty payload,
and so does the header-only cell `[71, 80, 0, 2]` whose flag declares a
32-byte envelope that is entirely missing. -/
theorem parseGpkgGeom_truncated_witness :
    parseGpkgGeom [1, 2] = .ok [] ∧
    parseGpkgGeom [71, 80, 0, 2] = .ok [] := by
  constructor
  · exact ((parseGpkgGeom_truncated [1, 2]).1 (by decide)).2.2
  · exact (parseGpkgGeom_truncated [71, 80, 0, 2]).2 32 (by decide) (by decide)

/-- C8: the loader accepts exactly three input shapes.  A blob/file is read
directly, independently of the fetch environment (no network); any other
input type fails with the invalid-input-kind error; for both URL-like
shapes a resolved but non-ok response fails with the source-unreachable
error carrying the response status and statusText. -/
theorem readRawGpkg_input_shapes (fetchEnv : String → FetchOutcome) :
    (∀ content fetchEnv2, readRawGpkg fetchEnv (.blob content) =
        readRawGpkg fetchEnv2 (.blob content)) ∧
    (∀ bytes, readRawGpkg fetchEnv (.blob (.ok bytes)) = .ok bytes) ∧
    (readRawGpkg fetchEnv .other = .error .invalidInputKind) ∧
    (∀ url r, fetchEnv url = .resolved r → responseOk r.status = false →
      readRawGpkg fetchEnv (.urlString url) =
        .error (.sourceUnreachable url r.status r.statusText) ∧
      readRawGpkg fetchEnv (.urlObject url) =
        .error (.sourceUnreachable url r.status r.statusText)) := by
  refine ⟨fun content fetchEnv2 => rfl, fun bytes => rfl, rfl, ?_⟩
  intro url r hr hok
  constructor
  · simp [readRawGpkg, fetchAndRead, hr, hok]
  · simp [readRawGpkg, fetchAndRead, hr, hok]

/-- Witness for C8: a 404 response yields the source-unreachable error
carrying status 404, and a non-URL non-blob input is rejected as an
invalid input kind. -/
theorem readRawGpkg_input_shapes_witness :
    readRawGpkg fetch404 (.urlString "http://example.com/a.gpkg") =
      .error (.sourceUnreachable "http://example.com/a.gpkg" 404 "Not Found") ∧
    readRawGpkg fetch404 .other = .error .invalidInputKind := by
  constructor
  · exact ((readRawGpkg_input_shapes fetch404).2.2.2 "http://example.com/a.gpkg"
      { status := 404, statusText := "Not Found", body := .ok [] } rfl (by decide)).1
  · exact (readRawGpkg_input_shapes fetch404).2.2.1

/-- C3: the synchronous prefix of `loadGpkg` throws in exactly two cases —
WASM loading never started, or the display projection unregistered (checked
in that order) — and a synchronous throw starts no fetch: the call's result
does not depend on the fetch environment at all. -/
theorem loadGpkg_sync_failures (st : ProcState) (reg : String → Bool)
    (file : GpkgInput) (proj : String) :
    (∀ e, loadGpkgSync st reg file proj = .thrown e ↔
      (st.promiseSqlWasmLoaded = none ∧ e = .wasmNotInit) ∨
      (st.promiseSqlWasmLoaded ≠ none ∧ reg proj = false ∧
        e = .unknownDisplayProjection proj)) ∧
    (∀ e, loadGpkgSync st reg file proj = .thrown e →
      fetchStartedOf (loadGpkgSync st reg file proj) = none ∧
      ∀ fetchEnv fetchEnv2 : String → FetchOutcome,
        loadGpkgRun st reg fetchEnv file proj = (.syncThrow e, st) ∧
        loadGpkgRun st reg fetchEnv file proj =
          loadGpkgRun st reg fetchEnv2 file proj) := by
  rcases hst : st.promiseSqlWasmLoaded with _ | wasmRes
  · constructor
    · intro e
      simp [loadGpkgSync, hst]
      exact eq_comm
    · intro e he
      have he' : e = .wasmNotInit :=
        (by simpa [loadGpkgSync, hst] using he : LoadError.wasmNotInit = e).symm
      subst he'
      exact ⟨by simp [loadGpkgSync, hst, fetchStartedOf],
        fun fetchEnv fetchEnv2 => ⟨by simp [loadGpkgRun, loadGpkgSync, hst],
          by simp [loadGpkgRun, loadGpkgSync, hst]⟩⟩
  · by_cases hr : reg proj
    · constructor
      · intro e
        simp [loadGpkgSync, hst, hr]
      · intro e he
        simp [loadGpkgSync, hst, hr] at he
    · constructor
      · intro e
        simp [loadGpkgSync, hst, hr]
        exact eq_comm
      · intro e he
        have he' : e = .unknownDisplayProjection proj :=
          (by simpa [loadGpkgSync, hst, hr] using he :
            LoadError.unknownDisplayProjection proj = e).symm
        subst he'
        exact ⟨by simp [loadGpkgSync, hst, hr, fetchStartedOf],
          fun fetchEnv fetchEnv2 => ⟨by simp [loadGpkgRun, loadGpkgSync, hst, hr],
            by simp [loadGpkgRun, loadGpkgSync, hst, hr]⟩⟩

/-- Witness for C3: with WASM loading never started, `loadGpkg` throws the
not-started error synchronously. -/
theorem loadGpkg_sync_failures_witness :
    loadGpkgSync { promiseSqlWasmLoaded := none } regW .other "EPSG:3857" =
      .thrown .wasmNotInit :=
  ((loadGpkg_sync_failures { promiseSqlWasmLoaded := none } regW .other
    "EPSG:3857").1 .wasmNotInit).mpr (Or.inl ⟨rfl, rfl⟩)

/-- C7: both prerequisites are joined from their settled outcomes (wait for
all, no race).  A failed WASM load is reported, wrapped, even when the
fetch also failed; a fetch failure is propagated as the exact same error
value only when the WASM load succeeded; extraction runs only when both
succeeded. -/
theorem loadGpkg_join_policy (wasmRes : Except String SqlWasm)
    (fetchRes : Except LoadError (List Nat))
    (reg : String → Bool) (proj : String) :
    (∀ reason, wasmRes = .error reason →
      joinPrereqs wasmRes fetchRes = .error (.wasmLoadFailed reason) ∧
      loadGpkgAsync wasmRes fetchRes reg proj =
        .error (.wasmLoadFailed reason)) ∧
    (∀ wasm e, wasmRes = .ok wasm → fetchRes = .error e →
      joinPrereqs wasmRes fetchRes = .error e ∧
      loadGpkgAsync wasmRes fetchRes reg proj = .error e) ∧
    (∀ wasm bytes, wasmRes = .ok wasm → fetchRes = .ok bytes →
      joinPrereqs wasmRes fetchRes = .ok (wasm, bytes) ∧
      loadGpkgAsync wasmRes fetchRes reg proj =
        processGpkgData reg (wasm.databaseOf bytes) proj) := by
  refine ⟨?_, ?_, ?_⟩
  · intro reason hw
    subst hw
    exact ⟨rfl, by simp [loadGpkgAsync, joinPrereqs]⟩
  · intro wasm e hw hf
    subst hw; subst hf
    exact ⟨rfl, by simp [loadGpkgAsync, joinPrereqs]⟩
  · intro wasm bytes hw hf
    subst hw; subst hf
    exact ⟨rfl, by simp [loadGpkgAsync, joinPrereqs]⟩

/-- C9: a `loadGpkg` call never writes the module-level WASM signal — the
state after any call (failing or not) is the state before it, and any later
call behaves exactly as if the first call had never happened. -/
theorem loadGpkg_frame (st : ProcState) (reg : String → Bool)
    (fetchEnv : String → FetchOutcome) (file : GpkgInput) (proj : String) :
    (loadGpkgRun st reg fetchEnv file proj).2 = st ∧
    (∀ (reg2 : String → Bool) (fetchEnv2 : String → FetchOutcome)
        (file2 : GpkgInput) (proj2 : String),
      loadGpkgRun (loadGpkgRun st reg fetchEnv file proj).2 reg2 fetchEnv2
          file2 proj2 =
        loadGpkgRun st reg2 fetchEnv2 file2 proj2) := by
  have hframe : (loadGpkgRun st reg fetchEnv file proj).2 = st := by
    unfold loadGpkgRun
    cases loadGpkgSync st reg file proj <;> rfl
  exact ⟨hframe, fun reg2 fetchEnv2 file2 proj2 => by rw [hframe]⟩

/-- Looking up a deleted key gives nothing: the geometry column is gone from
the property bag once `delete` has run. -/
theorem lookupObj_objDelete_self {α : Type} (m : List (String × α))
    (k : String) : lookupObj (objDelete m k) k = none := by
  induction m with
  | nil => rfl
  | cons p ps ih =>
    by_cases hp : p.1 = k
    · simpa [objDelete, hp] using ih
    · simpa [objDelete, lookupObj, hp] using ih

/-- Assigning a key absent from an object appends the binding. -/
theorem objAssign_fresh {α : Type} (m : List (String × α)) (k : String)
    (v : α) (h : k ∉ m.map Prod.fst) : objAssign m k v = m ++ [(k, v)] := by
  simp [objAssign, h]

/-- Folding object assignment over rows with pairwise-distinct fresh keys
just appends the rows. -/
theorem foldl_objAssign_eq {α : Type} (rows : List (String × α)) :
    ∀ acc : List (String × α),
      (∀ p ∈ rows, p.1 ∉ acc.map Prod.fst) →
      (rows.map Prod.fst).Nodup →
      rows.foldl (fun m p => objAssign m p.1 p.2) acc = acc ++ rows := by
  induction rows with
  | nil => intro acc _ _; simp
  | cons p rs ih =>
    intro acc hd hn
    rw [List.map_cons, List.nodup_cons] at hn
    have hfresh : p.1 ∉ acc.map Prod.fst := hd p (List.mem_cons_self p rs)
    have hd' : ∀ q ∈ rs, q.1 ∉ (acc ++ [p]).map Prod.fst := by
      intro q hq
      simp only [List.map_append, List.mem_append]
      rintro (hin | hin)
      · exact hd q (List.mem_cons_of_mem _ hq) hin
      · simp only [List.map_cons, List.map_nil, List.mem_singleton] at hin
        exact hn.1 (hin ▸ List.mem_map_of_mem Prod.fst hq)
    calc (p :: rs).foldl (fun m q => objAssign m q.1 q.2) acc
        = rs.foldl (fun m q => objAssign m q.1 q.2) (objAssign acc p.1 p.2) := by
          simp
      _ = rs.foldl (fun m q => objAssign m q.1 q.2) (acc ++ [p]) := by
          rw [objAssign_fresh _ _ _ hfresh]
      _ = (acc ++ [p]) ++ rs := ih (acc ++ [p]) hd' hn.2
      _ = acc ++ p :: rs := by simp

/-- A row that processed successfully has its geometry column deleted from
the attached attributes. -/
theorem processRow_ok_properties (tp dp gc : String) (row : Row)
    (f : Feature) (h : processRow tp dp gc row = .ok f) :
    f.properties = objDelete row gc := by
  cases hl : lookupObj row gc with
  | none => simp [processRow, hl] at h
  | some v =>
    cases v with
    | text s => simp [processRow, hl] at h
    | num n => simp [processRow, hl] at h
    | null => simp [processRow, hl] at h
    | blob b =>
      cases hp : parseGpkgGeom b with
      | error e => simp [processRow, hl, hp] at h
      | ok wkb =>
        simp only [processRow, hl, hp] at h
        cases h
        rfl

/-- Every feature produced by the row loop comes from some source row. -/
theorem processRows_ok_mem (tp dp gc : String) :
    ∀ (rows : List Row) (fs : List Feature),
      processRows tp dp gc rows = .ok fs →
      ∀ f ∈ fs, ∃ r ∈ rows, processRow tp dp gc r = .ok f := by
  intro rows
  induction rows with
  | nil =>
    intro fs h f hf
    simp only [processRows] at h
    cases h
    cases hf
  | cons r rs ih =>
    intro fs h f hf
    simp only [processRows] at h
    cases hr : processRow tp dp gc r with
    | error e => simp [hr] at h
    | ok f' =>
      simp only [hr] at h
      cases hrs : processRows tp dp gc rs with
      | error e => simp [hrs] at h
      | ok fs' =>
        simp only [hrs] at h
        cases h
        rcases List.mem_cons.mp hf with rfl | hf'
        · exact ⟨r, List.mem_cons_self _ _, hr⟩
        · obtain ⟨r', hr', h'⟩ := ih fs' hrs f hf'
          exact ⟨r', List.mem_cons_of_mem _ hr', h'⟩

/-- Shape of a successfully materialized table: the source is tagged with
exactly the origProjection property, and no feature's attributes contain
the geometry column. -/
theorem processTable_ok_shape (reg : String → Bool) (dp : String)
    (db : Database) (t : FeatureTableDesc) (vs : VectorSource)
    (h : processTable reg dp db t = .ok vs) :
    vs.props = [("origProjection", "EPSG:" ++ t.srs_id)] ∧
    ∀ f ∈ vs.features,
      lookupObj f.properties t.geometry_column_name = none := by
  by_cases hr : reg ("EPSG:" ++ t.srs_id)
  · cases hps : processRows ("EPSG:" ++ t.srs_id) dp t.geometry_column_name
        (db.tables t.table_name) with
    | error e => simp [processTable, hr, hps] at h
    | ok fs =>
      simp only [processTable, hr, if_true, hps] at h
      cases h
      refine ⟨rfl, ?_⟩
      intro f hf
      obtain ⟨r, hrmem, hrow⟩ :=
        processRows_ok_mem _ _ _ _ _ hps f hf
      rw [processRow_ok_properties _ _ _ _ _ hrow]
      exact lookupObj_objDelete_self r t.geometry_column_name
  · simp [processTable, hr] at h

/-- Success of the table loop means every listed table materialized. -/
theorem processTables_ok_each (reg : String → Bool) (dp : String)
    (db : Database) :
    ∀ (ts : List FeatureTableDesc) (acc data : List (String × VectorSource)),
      processTables reg dp db ts acc = .ok data →
      ∀ t ∈ ts, ∃ vs, processTable reg dp db t = .ok vs := by
  intro ts
  induction ts with
  | nil => intro acc data _ t ht; cases ht
  | cons t ts ih =>
    intro acc data h u hu
    simp only [processTables] at h
    cases hpt : processTable reg dp db t with
    | error e => simp [hpt] at h
    | ok vs =>
      simp only [hpt] at h
      rcases List.mem_cons.mp hu with rfl | hu'
      · exact ⟨vs, hpt⟩
      · exact ih _ data h u hu'

/-- The table loop, started from an accumulator disjoint from the remaining
table names, appends one binding per table, in order, each the successful
materialization of that table. -/
theorem processTables_ok_core (reg : String → Bool) (dp : String)
    (db : Database) :
    ∀ (ts : List FeatureTableDesc) (acc data : List (String × VectorSource)),
      processTables reg dp db ts acc = .ok data →
      (∀ t ∈ ts, t.table_name ∉ acc.map Prod.fst) →
      (ts.map (fun t => t.table_name)).Nodup →
      ∃ rest, data = acc ++ rest ∧
        rest.map Prod.fst = ts.map (fun t => t.table_name) ∧
        ∀ t ∈ ts, ∃ vs, processTable reg dp db t = .ok vs ∧
          lookupObj rest t.table_name = some vs := by
  intro ts
  induction ts with
  | nil =>
    intro acc data h _ _
    simp only [processTables] at h
    cases h
    exact ⟨[], by simp, rfl, fun t ht => absurd ht (List.not_mem_nil t)⟩
  | cons t ts ih =>
    intro acc data h hdisj hnodup
    rw [List.map_cons, List.nodup_cons] at hnodup
    simp only [processTables] at h
    cases hpt : processTable reg dp db t with
    | error e => simp [hpt] at h
    | ok vs =>
      simp only [hpt] at h
      have hfresh : t.table_name ∉ acc.map Prod.fst :=
        hdisj t (List.mem_cons_self _ _)
      rw [objAssign_fresh _ _ _ hfresh] at h
      have hdisj' : ∀ u ∈ ts,
          u.table_name ∉ (acc ++ [(t.table_name, vs)]).map Prod.fst := by
        intro u hu
        simp only [List.map_append, List.mem_append]
        rintro (hin | hin)
        · exact hdisj u (List.mem_cons_of_mem _ hu) hin
        · simp only [List.map_cons, List.map_nil, List.mem_singleton] at hin
          exact hnodup.1
            (hin ▸ List.mem_map_of_mem (fun t => t.table_name) hu)
      obtain ⟨rest', hdata, hmap, hall⟩ :=
        ih (acc ++ [(t.table_name, vs)]) data h hdisj' hnodup.2
      refine ⟨(t.table_name, vs) :: rest', by simpa using hdata,
        by simpa using hmap, ?_⟩
      intro u hu
      rcases List.mem_cons.mp hu with rfl | hu'
      · exact ⟨vs, hpt, by simp [lookupObj]⟩
      · obtain ⟨vsu, hvsu, hlooku⟩ := hall u hu'
        have hne : t.table_name ≠ u.table_name := by
          intro hc
          exact hnodup.1
            (hc ▸ List.mem_map_of_mem (fun t => t.table_name) hu')
        exact ⟨vsu, hvsu, by simpa [lookupObj, hne] using hlooku⟩

/-- C4: for every successful load with catalog table names pairwise
distinct, the feature-collection mapping has exactly one key per catalog
row marked as vector feature data, in order; each table's source carries
origProjection equal to "EPSG:" followed by its catalog srs id; and no
feature of any source retains the geometry column among its attributes. -/
theorem processGpkgData_tables (reg : String → Bool) (db : Database)
    (dp : String) (data : List (String × VectorSource))
    (slds : List (String × String))
    (h : processGpkgData reg db dp = .ok (data, slds))
    (hnodup : ((featureTables db).map (fun t => t.table_name)).Nodup) :
    data.map Prod.fst = (featureTables db).map (fun t => t.table_name) ∧
    ∀ t ∈ featureTables db, ∃ vs,
      lookupObj data t.table_name = some vs ∧
      lookupObj vs.props "origProjection" = some ("EPSG:" ++ t.srs_id) ∧
      ∀ f ∈ vs.features,
        lookupObj f.properties t.geometry_column_name = none := by
  cases hpt : processTables reg dp db (featureTables db) [] with
  | error e => simp [processGpkgData, hpt] at h
  | ok data' =>
    simp only [processGpkgData, hpt, Except.ok.injEq, Prod.mk.injEq] at h
    obtain ⟨rest, hdata, hmap, hall⟩ :=
      processTables_ok_core reg dp db (featureTables db) [] data' hpt
        (by simp) hnodup
    have hdata' : data = rest := by
      rw [← h.1]
      simpa using hdata
    subst hdata'
    refine ⟨hmap, ?_⟩
    intro t ht
    obtain ⟨vs, hvs, hlook⟩ := hall t ht
    obtain ⟨hprops, hnog⟩ := processTable_ok_shape reg dp db t vs hvs
    exact ⟨vs, hlook, by simp [hprops, lookupObj], hnog⟩

/-- C5: for every feature table whose declared spatial reference is not
registered, the materializer fails with the unknown-source-projection error
naming the table and the missing identifier; the failure is decided before
any row of the table is read (the outcome does not depend on the table
contents at all); and a package containing such a table can never load
successfully. -/
theorem processTable_unknown_srs (reg : String → Bool) (dp : String)
    (db : Database) (t : FeatureTableDesc)
    (h : reg ("EPSG:" ++ t.srs_id) = false) :
    processTable reg dp db t =
      .error (.unknownSourceProjection t.table_name ("EPSG:" ++ t.srs_id)) ∧
    (∀ tbls : String → List Row,
      processTable reg dp { db with tables := tbls } t =
        .error (.unknownSourceProjection t.table_name
          ("EPSG:" ++ t.srs_id))) ∧
    (t ∈ featureTables db →
      ∀ res, processGpkgData reg db dp ≠ .ok res) := by
  have hmain : ∀ d : Database, processTable reg dp d t =
      .error (.unknownSourceProjection t.table_name
        ("EPSG:" ++ t.srs_id)) := by
    intro d
    simp [processTable, h]
  refine ⟨hmain db, fun tbls => hmain _, ?_⟩
  intro ht res hok
  cases hpt : processTables reg dp db (featureTables db) [] with
  | error e => simp [processGpkgData, hpt] at hok
  | ok data =>
    obtain ⟨vs, hvs⟩ :=
      processTables_ok_each reg dp db (featureTables db) [] data hpt t ht
    rw [hmain db] at hvs
    exact absurd hvs (by simp)

/-- C6: the loader probes the catalog for a table named layer_styles; when
the probe fails the style mapping is the empty object (and that is not an
error — the load goes on); when it succeeds and the style rows have
pairwise-distinct layer names, the style mapping is exactly the selected
(layer name, style XML) pairs. -/
theorem extractSlds_spec (db : Database) :
    (hasLayerStyles db = false → extractSlds db = []) ∧
    (hasLayerStyles db = true → (db.layerStyles.map Prod.fst).Nodup →
      extractSlds db = db.layerStyles) ∧
    (hasLayerStyles db = true ↔
      ∃ c ∈ db.contents, c.table_name = "layer_styles") := by
  refine ⟨?_, ?_, ?_⟩
  · intro h
    simp [extractSlds, h]
  · intro h hn
    have hfold := foldl_objAssign_eq db.layerStyles [] (by simp) hn
    simpa [extractSlds, h, sldsFrom] using hfold
  · simp [hasLayerStyles, List.any_eq_true]

/-- Witness for C4: loading `dbW` yields exactly the key "roads", tagged
with origProjection EPSG:4326, and its feature carries no "geom"
attribute. -/
theorem processGpkgData_tables_witness :
    dataW.map Prod.fst = (featureTables dbW).map (fun t => t.table_name) ∧
    ∀ t ∈ featureTables dbW, ∃ vs,
      lookupObj dataW t.table_name = some vs ∧
      lookupObj vs.props "origProjection" = some ("EPSG:" ++ t.srs_id) ∧
      ∀ f ∈ vs.features,
        lookupObj f.properties t.geometry_column_name = none :=
  processGpkgData_tables regW dbW "EPSG:3857" dataW [] (by decide) (by decide)

/-- Witness for C5: with an empty projection registry, table "roads" fails
with the unknown-source-projection error naming "roads" and "EPSG:4326",
and the load of `dbW` cannot succeed. -/
theorem processTable_unknown_srs_witness :
    processTable (fun _ => false) "EPSG:3857" dbW
        { table_name := "roads", srs_id := "4326",
          geometry_column_name := "geom" } =
      .error (.unknownSourceProjection "roads" ("EPSG:" ++ "4326")) ∧
    ∀ res, processGpkgData (fun _ => false) dbW "EPSG:3857" ≠ .ok res := by
  have h := processTable_unknown_srs (fun _ => false) "EPSG:3857" dbW
    { table_name := "roads", srs_id := "4326",
      geometry_column_name := "geom" } rfl
  exact ⟨h.1, h.2.2 (by decide)⟩

/-- Witness for C6: `dbW` has no layer_styles table and an empty style
mapping; `dbW2` has one and its style mapping is exactly its rows. -/
theorem extractSlds_spec_witness :
    extractSlds dbW = [] ∧ extractSlds dbW2 = [("roads", "<sld/>")] :=
  ⟨(extractSlds_spec dbW).1 (by decide),
   (extractSlds_spec dbW2).2.1 (by decide) (by decide)⟩

/-- Witness for C7: a failed WASM load is reported, wrapped, even though the
fetch also failed; a fetch failure is propagated as the exact error value
when the WASM load succeeded; and with both fulfilled the call proceeds to
extraction. -/
theorem loadGpkg_join_policy_witness :
    joinPrereqs (.error "boom") (.error .invalidInputKind) =
      .error (.wasmLoadFailed "boom") ∧
    joinPrereqs (.ok wasmW) (.error .invalidInputKind) =
      .error .invalidInputKind ∧
    loadGpkgAsync (.ok wasmW) (.ok gW) regW "EPSG:3857" =
      processGpkgData regW (wasmW.databaseOf gW) "EPSG:3857" :=
  ⟨((loadGpkg_join_policy (.error "boom") (.error .invalidInputKind) regW
      "EPSG:3857").1 "boom" rfl).1,
   ((loadGpkg_join_policy (.ok wasmW) (.error .invalidInputKind) regW
      "EPSG:3857").2.1 wasmW .invalidInputKind rfl rfl).1,
   ((loadGpkg_join_policy (.ok wasmW) (.ok gW) regW
      "EPSG:3857").2.2 wasmW gW rfl rfl).2⟩
